import Mathlib

/-!
Verification of the token-relay service in `src/auth_server.py` (Flask +
requests).  The three HTTP handlers (`health`, `exchange_token`, `logout`)
are embedded shallowly: each handler becomes a Lean function from its
configuration, the outcome of the framework body-parse (`request.get_json()`),
and the outcomes of the outbound provider calls, to the JSON response it
returns.  JSON values are a small inductive type; Python truthiness and
`dict.get` are modelled explicitly.

Framework semantics used at the embedding boundary (Flask / requests):
* `request.get_json()` (default `silent=False`) either raises a
  `BadRequest` exception when the body is present but not parseable as
  JSON, or returns `None` (no usable body), or returns the parsed value.
  A raised exception propagates into the handler's `try` block and is
  caught by its generic `except Exception` clause.
* `requests.post` / `requests.get` either raise a `RequestException`
  (network error, timeout) or return a response carrying an HTTP status
  and a body; `raise_for_status()` raises an `HTTPError` (a
  `RequestException`) exactly when `400 ≤ status < 600`, with a message
  built from the status and the URL; `.json()` raises a `ValueError`
  (not a `RequestException`) when the body is not JSON.
-/

namespace AuthServer

/-- JSON values as produced by the Python `json` layer.  Objects keep their
fields as an association list; Python dict keys are unique, and lookups read
the first matching key. -/
inductive Json where
  | null
  | bool (b : Bool)
  | num (n : Int)
  | str (s : String)
  | arr (elems : List Json)
  | obj (fields : List (String × Json))

/-- Python truthiness of a parsed JSON value: `None`, `False`, `0`, `""`,
`[]` and `{}` are falsy, everything else truthy.  Used by `if not data:`
and `if not all([...])` in the handlers. -/
def truthy : Json → Bool
  | .null => false
  | .bool b => b
  | .num n => n != 0
  | .str s => s != ""
  | .arr es => !es.isEmpty
  | .obj fs => !fs.isEmpty

/-- Python `dict.get(k)` on a parsed JSON object (returns `None` when the
key is absent; the value itself even when that value is `None`). -/
def Json.get (fields : List (String × Json)) (k : String) : Json :=
  (fields.lookup k).getD .null

/-- Python `dict.get(k, default)` with an explicit default. -/
def Json.getOr (fields : List (String × Json)) (k : String) (d : Json) : Json :=
  (fields.lookup k).getD d

/-- Field lookup on a JSON value, for stating properties of response
bodies (`some v` when the body is an object containing the key). -/
def Json.field : Json → String → Option Json
  | .obj fields, k => fields.lookup k
  | _, _ => none

/-- Python `str()` of a possibly-unset environment variable, as an f-string
interpolates it: `os.getenv` yields `None` when the variable is unset and
f-string interpolation renders that as the four characters `None`. -/
def pyStr : Option String → String
  | none => "None"
  | some s => s

/-- Python `str()` of a parsed JSON value, as f-string interpolation
renders it.  Scalars are rendered exactly as Python does; container
values would be rendered by Python `repr`, abbreviated here to fixed
markers since no endpoint contract interpolates a container. -/
def Json.interpStr : Json → String
  | .null => "None"
  | .bool true => "True"
  | .bool false => "False"
  | .num n => toString n
  | .str s => s
  | .arr _ => "<list>"
  | .obj _ => "<dict>"

/-- The process-wide configuration read once at startup from the
environment: `AUTH0_DOMAIN`, `AUTH0_CLIENT_ID`, `AUTH0_CLIENT_SECRET`.
`os.getenv` returns `None` for an unset variable, hence the `Option`s. -/
structure Config where
  domain : Option String
  clientId : Option String
  clientSecret : Option String

/-- An HTTP response produced by a handler: status code and JSON body
(every return path goes through `jsonify(...)`). -/
structure Response where
  status : Nat
  body : Json

/-- Outcome of `request.get_json()` for the inbound request:
`raised msg` when the body is present but not parseable as JSON (Flask
raises `BadRequest`, whose `str()` is `msg`); `returned none` when no
usable JSON body was delivered (Python `None`); `returned (some j)` when
the body parsed to `j`. -/
inductive GetJson where
  | raised (msg : String)
  | returned (data : Option Json)

/-- Outcome of the body of an HTTP response as seen through `.json()`:
either it fails to parse (`ValueError`, with `str()` equal to the carried
message) or it parses to a JSON value. -/
inductive BodyParse where
  | malformed (msg : String)
  | parsed (j : Json)

/-- Outcome of the outbound `requests.post` to the provider token
endpoint: a raised `RequestException` (network error, timeout) with its
`str()`, or a received response with HTTP status and body. -/
inductive PostOutcome where
  | netError (detail : String)
  | resp (status : Nat) (body : BodyParse)

/-- Outcome of the outbound `requests.get` to the provider userinfo
endpoint, same shape as `PostOutcome`. -/
inductive GetOutcome where
  | netError (detail : String)
  | resp (status : Nat) (body : BodyParse)

/-- The message of the `HTTPError` raised by `raise_for_status()` on a
non-success status: requests builds it from the status code, a
client/server marker and the URL. -/
def raiseForStatusDetail (status : Nat) (url : String) : String :=
  if status < 500 then
    toString status ++ " Client Error for url: " ++ url
  else
    toString status ++ " Server Error for url: " ++ url

/-- Response of the `GET /health` handler (lines 41-44): always 200 with a
fixed payload.  The handler reads none of the configuration; it is
parametrised by it only to state that explicitly. -/
def health (_cfg : Config) : Response :=
  ⟨200, .obj [("status", .str "ok"), ("message", .str "RTool Auth Server activo")]⟩

/-- The 400 response for a missing/falsy JSON body (line 72). -/
def noJsonBody : Response :=
  ⟨400, .obj [("error", .str "No se envió JSON")]⟩

/-- The 400 response for missing required fields (lines 79-82): the
`required` member always enumerates all three field names. -/
def missingParam : Response :=
  ⟨400, .obj [("error", .str "Falta parámetro"),
              ("required", .arr [.str "code", .str "code_verifier", .str "redirect_uri"])]⟩

/-- The 500 response of the `except requests.exceptions.RequestException`
clause (lines 126-131). -/
def upstreamError (detail : String) : Response :=
  ⟨500, .obj [("error", .str "Error contactando Auth0"), ("details", .str detail)]⟩

/-- The 500 response of the generic `except Exception` clause
(lines 133-138). -/
def internalError (detail : String) : Response :=
  ⟨500, .obj [("error", .str "Error interno del servidor"), ("details", .str detail)]⟩

/-- The provider token endpoint URL (line 85). -/
def tokenUrl (cfg : Config) : String :=
  "https://" ++ pyStr cfg.domain ++ "/oauth/token"

/-- The JSON payload POSTed to the provider token endpoint (lines 87-94):
client credentials from configuration, the caller-supplied code, redirect
URI and PKCE verifier, and the fixed grant type. -/
def tokenPayload (cfg : Config) (code redirect_uri code_verifier : Json) : Json :=
  .obj [("client_id", .str (pyStr cfg.clientId)),
        ("client_secret", .str (pyStr cfg.clientSecret)),
        ("code", code),
        ("grant_type", .str "authorization_code"),
        ("redirect_uri", redirect_uri),
        ("code_verifier", code_verifier)]

/-- The `user_info` mapping computed by lines 104-114: starts empty; when
the token payload carries an `access_token`, a best-effort userinfo GET is
attempted, and only a 200 response with a parseable body replaces the
empty mapping.  Every failure of the lookup (raised exception, non-200
status, unparseable body) leaves it empty — the inner `try` swallows the
exception after logging. -/
def userInfoOf (tokenFields : List (String × Json)) (ui : GetOutcome) : Json :=
  match tokenFields.lookup "access_token" with
  | none => .obj []
  | some _ =>
    match ui with
    | .netError _ => .obj []
    | .resp status body =>
      if status = 200 then
        match body with
        | .malformed _ => .obj []
        | .parsed j => j
      else .obj []

/-- The 200 success response of lines 117-124: the provider token fields
passed through by `dict.get` (absent fields become JSON null, except
`token_type` which defaults to the string `Bearer`), plus the obtained
`user_info`. -/
def successResponse (tokenFields : List (String × Json)) (user_info : Json) : Response :=
  ⟨200, .obj [("success", .bool true),
              ("access_token", Json.get tokenFields "access_token"),
              ("token_type", Json.getOr tokenFields "token_type" (.str "Bearer")),
              ("expires_in", Json.get tokenFields "expires_in"),
              ("id_token", Json.get tokenFields "id_token"),
              ("user_info", user_info)]⟩

/-- Result of one run of the `POST /api/auth/token` handler: the response
returned to the caller, and the JSON payload sent to the provider token
endpoint when that outbound call was made (it carries the client secret;
kept here so that what the secret can influence is part of the model). -/
structure ExchangeResult where
  response : Response
  sentTokenRequest : Option Json

/-- The `POST /api/auth/token` handler (`exchange_token`, lines 47-138),
as a function of the configuration, the `request.get_json()` outcome, the
token-endpoint POST outcome and the userinfo GET outcome.

Paths, in source order: a raised body-parse exception is caught by the
generic `except Exception` (500); a falsy/absent body gives 400
`No se envió JSON`; a truthy non-object body makes `data.get` raise
`AttributeError`, caught by the generic clause (500); missing/falsy
required fields give 400 with the `required` list; a raised
`RequestException` from the POST or from `raise_for_status()` gives 500
with the provider detail; an unparseable token body raises `ValueError`,
caught by the generic clause (500); a non-object token body makes
membership/`.get` raise, caught by the generic clause (500); otherwise
the 200 success response is built. -/
def exchange_token (cfg : Config) (body : GetJson)
    (post : PostOutcome) (ui : GetOutcome) : ExchangeResult :=
  match body with
  | .raised msg => ⟨internalError msg, none⟩
  | .returned odata =>
    let data := odata.getD .null
    if truthy data then
      match data with
      | .obj fields =>
        let code := Json.get fields "code"
        let code_verifier := Json.get fields "code_verifier"
        let redirect_uri := Json.get fields "redirect_uri"
        if truthy code && truthy code_verifier && truthy redirect_uri then
          let payload := tokenPayload cfg code redirect_uri code_verifier
          match post with
          | .netError d => ⟨upstreamError d, some payload⟩
          | .resp status pbody =>
            if 400 ≤ status ∧ status < 600 then
              ⟨upstreamError (raiseForStatusDetail status (tokenUrl cfg)), some payload⟩
            else
              match pbody with
              | .malformed d => ⟨internalError d, some payload⟩
              | .parsed token_data =>
                match token_data with
                | .obj tokenFields =>
                  ⟨successResponse tokenFields (userInfoOf tokenFields ui), some payload⟩
                | _ =>
                  ⟨internalError "AttributeError: token payload is not an object",
                   some payload⟩
        else
          ⟨missingParam, none⟩
      | _ => ⟨internalError "AttributeError: parsed body has no attribute get", none⟩
    else ⟨noJsonBody, none⟩

/-- The base logout URL built at line 151 by f-string interpolation of the
two (possibly unset) configuration values. -/
def logoutBase (cfg : Config) : String :=
  "https://" ++ pyStr cfg.domain ++ "/v2/logout?client_id=" ++ pyStr cfg.clientId

/-- The `POST /api/auth/logout` handler (`logout`, lines 141-161), as a
function of the configuration and the `request.get_json()` outcome.

A raised body-parse exception is caught by the handler's
`except Exception` clause, which answers 500 with the exception text; a
falsy or absent body is replaced by `{}` (`get_json() or {}`); a truthy
non-object body makes `data.get` raise `AttributeError`, caught by the
same clause; otherwise the logout URL is built and `&returnTo=` plus the
interpolated `return_to` value is appended exactly when that value is
truthy. -/
def logout (cfg : Config) (body : GetJson) : Response :=
  match body with
  | .raised msg => ⟨500, .obj [("error", .str msg)]⟩
  | .returned odata =>
    let raw := odata.getD .null
    let data := if truthy raw then raw else .obj []
    match data with
    | .obj fields =>
      let return_to := Json.getOr fields "return_to" (.str "")
      let url :=
        if truthy return_to then
          logoutBase cfg ++ "&returnTo=" ++ return_to.interpStr
        else logoutBase cfg
      ⟨200, .obj [("logout_url", .str url)]⟩
    | _ => ⟨500, .obj [("error", .str "AttributeError: parsed body has no attribute get")]⟩

/-- The userinfo lookup counts as failed when the GET raised a
`RequestException`, when the status was not 200, or when a 200 body was
unparseable. -/
def userinfoFailed : GetOutcome → Bool
  | .netError _ => true
  | .resp _ (.malformed _) => true
  | .resp status (.parsed _) => status != 200

/-- The token-endpoint POST counts as an upstream failure when it raised a
`RequestException` or when `raise_for_status()` raises, i.e. the status is
in `[400, 600)`. -/
def upstreamFailure : PostOutcome → Bool
  | .netError _ => true
  | .resp status _ => decide (400 ≤ status ∧ status < 600)

/-- The diagnostic text that `str(e)` yields for an upstream failure: the
`RequestException` message for a network error, the `HTTPError` message
built by `raise_for_status()` otherwise. -/
def upstreamDetail : PostOutcome → String → String
  | .netError d, _ => d
  | .resp status _, url => raiseForStatusDetail status url

/-- A failed userinfo lookup leaves the profile mapping empty, whatever the
provider token payload was. -/
theorem userInfoOf_of_failed (tokenFields : List (String × Json)) (ui : GetOutcome)
    (h : userinfoFailed ui = true) : userInfoOf tokenFields ui = .obj [] := by
  unfold userInfoOf
  cases hl : tokenFields.lookup "access_token" with
  | none => rfl
  | some v =>
    cases ui with
    | netError d => rfl
    | resp status body =>
      cases body with
      | malformed msg => by_cases hs : status = 200 <;> simp [hs]
      | parsed j =>
        have hs : status ≠ 200 := by simpa [userinfoFailed] using h
        simp [hs]

/-- Reduction of `exchange_token` on a well-formed request body: when
`code`, `code_verifier` and `redirect_uri` are present as non-empty
strings, the handler reaches the outbound POST, and the rest of the run
is determined by the POST outcome. -/
theorem exchange_token_wellformed (cfg : Config) (fields : List (String × Json))
    (c v r : String) (post : PostOutcome) (ui : GetOutcome)
    (hcode : fields.lookup "code" = some (.str c)) (hc : c ≠ "")
    (hver : fields.lookup "code_verifier" = some (.str v)) (hv : v ≠ "")
    (hred : fields.lookup "redirect_uri" = some (.str r)) (hr : r ≠ "") :
    exchange_token cfg (.returned (some (.obj fields))) post ui
      = (match post with
         | .netError d =>
           ⟨upstreamError d, some (tokenPayload cfg (.str c) (.str r) (.str v))⟩
         | .resp status pbody =>
           if 400 ≤ status ∧ status < 600 then
             ⟨upstreamError (raiseForStatusDetail status (tokenUrl cfg)),
              some (tokenPayload cfg (.str c) (.str r) (.str v))⟩
           else
             match pbody with
             | .malformed d =>
               ⟨internalError d, some (tokenPayload cfg (.str c) (.str r) (.str v))⟩
             | .parsed (.obj tokenFields) =>
               ⟨successResponse tokenFields (userInfoOf tokenFields ui),
                some (tokenPayload cfg (.str c) (.str r) (.str v))⟩
             | .parsed _ =>
               ⟨internalError "AttributeError: token payload is not an object",
                some (tokenPayload cfg (.str c) (.str r) (.str v))⟩) := by
  have ht : (!fields.isEmpty) = true := by
    cases fields with
    | nil => simp [List.lookup] at hcode
    | cons a as => rfl
  have hc' : (c != "") = true := by simpa using hc
  have hv' : (v != "") = true := by simpa using hv
  have hr' : (r != "") = true := by simpa using hr
  simp only [exchange_token, Option.getD_some, Json.get, hcode, hver, hred,
    truthy, hc', hv', hr', Bool.and_self, Bool.and_true, Bool.true_and]
  rw [if_pos ht]
  cases post with
  | netError d => rfl
  | resp status pbody => cases pbody with
    | malformed d => rfl
    | parsed td => cases td <;> rfl

/-- Reduction of `logout` on a request whose parsed body is a JSON object:
the handler answers 200 with the base URL, extended by `&returnTo=` and
the `return_to` string exactly when that string is non-empty. -/
theorem logout_obj_response (cfg : Config) (fields : List (String × Json)) (s : String)
    (h : Json.getOr fields "return_to" (.str "") = .str s) :
    logout cfg (.returned (some (.obj fields)))
      = ⟨200, .obj [("logout_url",
          .str (if s = "" then logoutBase cfg else logoutBase cfg ++ "&returnTo=" ++ s))]⟩ := by
  cases fields with
  | nil =>
    have hs : s = "" := by simpa [Json.getOr, List.lookup] using h.symm
    subst hs
    simp [logout, Json.getOr, truthy]
  | cons a as =>
    by_cases hs : s = ""
    · subst hs
      simp [logout, h, truthy]
    · simp [logout, h, truthy, hs, Json.interpStr]

/-- C9: the health-check handler returns 200 with the fixed payload
whatever the configuration holds; it makes no outbound call and has no
failure path. -/
theorem health_always_ok (cfg : Config) :
    health cfg = ⟨200, .obj [("status", .str "ok"),
                             ("message", .str "RTool Auth Server activo")]⟩ := rfl

/-- C1: for a well-formed exchange request whose token POST yields a
success status with a JSON-object payload, a failed userinfo lookup
(raised exception, non-200 status, or malformed 200 body) leaves the
operation at 200 with an empty `user_info` mapping and the provider's
`access_token`, `token_type` (defaulted to Bearer), `expires_in` and
`id_token` passed through by `dict.get`. -/
theorem exchange_userinfo_failure_empty_profile (cfg : Config)
    (fields tokenFields : List (String × Json)) (c v r : String) (st : Nat) (ui : GetOutcome)
    (hcode : fields.lookup "code" = some (.str c)) (hc : c ≠ "")
    (hver : fields.lookup "code_verifier" = some (.str v)) (hv : v ≠ "")
    (hred : fields.lookup "redirect_uri" = some (.str r)) (hr : r ≠ "")
    (hst : st < 400) (hui : userinfoFailed ui = true) :
    (exchange_token cfg (.returned (some (.obj fields)))
        (.resp st (.parsed (.obj tokenFields))) ui).response
      = ⟨200, .obj [("success", .bool true),
                    ("access_token", Json.get tokenFields "access_token"),
                    ("token_type", Json.getOr tokenFields "token_type" (.str "Bearer")),
                    ("expires_in", Json.get tokenFields "expires_in"),
                    ("id_token", Json.get tokenFields "id_token"),
                    ("user_info", .obj [])]⟩ := by
  rw [exchange_token_wellformed cfg fields c v r _ ui hcode hc hver hv hred hr]
  have hnot : ¬ (400 ≤ st ∧ st < 600) := by omega
  simp only [if_neg hnot]
  rw [userInfoOf_of_failed tokenFields ui hui]
  rfl

/-- Closed instance of `exchange_userinfo_failure_empty_profile`: a
concrete well-formed request, a 200 token payload, and a refused userinfo
connection. -/
theorem exchange_userinfo_failure_empty_profile_witness :
    (exchange_token ⟨some "d.auth0.com", some "cid", some "sec"⟩
        (.returned (some (.obj [("code", .str "abc"), ("code_verifier", .str "ver"),
                                ("redirect_uri", .str "http://localhost:8080/callback")])))
        (.resp 200 (.parsed (.obj [("access_token", .str "tok"),
                                   ("expires_in", .num 86400),
                                   ("id_token", .str "idt")])))
        (.netError "connection refused")).response
      = ⟨200, .obj [("success", .bool true),
                    ("access_token", .str "tok"),
                    ("token_type", .str "Bearer"),
                    ("expires_in", .num 86400),
                    ("id_token", .str "idt"),
                    ("user_info", .obj [])]⟩ :=
  (exchange_userinfo_failure_empty_profile ⟨some "d.auth0.com", some "cid", some "sec"⟩
    [("code", .str "abc"), ("code_verifier", .str "ver"),
     ("redirect_uri", .str "http://localhost:8080/callback")]
    [("access_token", .str "tok"), ("expires_in", .num 86400), ("id_token", .str "idt")]
    "abc" "ver" "http://localhost:8080/callback" 200 (.netError "connection refused")
    rfl (by decide) rfl (by decide) rfl (by decide) (by decide) rfl).trans rfl

/-- C2: for a well-formed exchange request whose token POST fails (raised
`RequestException`) or returns a non-success status (`raise_for_status()`
raises), the handler answers 500 with `error` set and `details` carrying
the provider diagnostic text, and no token field in the body. -/
theorem exchange_upstream_failure_response (cfg : Config)
    (fields : List (String × Json)) (c v r : String) (post : PostOutcome) (ui : GetOutcome)
    (hcode : fields.lookup "code" = some (.str c)) (hc : c ≠ "")
    (hver : fields.lookup "code_verifier" = some (.str v)) (hv : v ≠ "")
    (hred : fields.lookup "redirect_uri" = some (.str r)) (hr : r ≠ "")
    (hpost : upstreamFailure post = true) :
    (exchange_token cfg (.returned (some (.obj fields))) post ui).response
      = ⟨500, .obj [("error", .str "Error contactando Auth0"),
                    ("details", .str (upstreamDetail post (tokenUrl cfg)))]⟩ := by
  rw [exchange_token_wellformed cfg fields c v r post ui hcode hc hver hv hred hr]
  cases post with
  | netError d => rfl
  | resp status pbody =>
    have hs : 400 ≤ status ∧ status < 600 := by simpa [upstreamFailure] using hpost
    simp only [if_pos hs]
    rfl

/-- Closed instance of `exchange_upstream_failure_response`: a concrete
well-formed request answered 401 by the provider token endpoint. -/
theorem exchange_upstream_failure_response_witness :
    (exchange_token ⟨some "d.auth0.com", some "cid", some "sec"⟩
        (.returned (some (.obj [("code", .str "abc"), ("code_verifier", .str "ver"),
                                ("redirect_uri", .str "http://localhost:8080/callback")])))
        (.resp 401 (.parsed (.obj [("error", .str "access_denied")])))
        (.netError "unused")).response
      = ⟨500, .obj [("error", .str "Error contactando Auth0"),
                    ("details", .str "401 Client Error for url: https://d.auth0.com/oauth/token")]⟩ :=
  (exchange_upstream_failure_response ⟨some "d.auth0.com", some "cid", some "sec"⟩
    [("code", .str "abc"), ("code_verifier", .str "ver"),
     ("redirect_uri", .str "http://localhost:8080/callback")]
    "abc" "ver" "http://localhost:8080/callback"
    (.resp 401 (.parsed (.obj [("error", .str "access_denied")]))) (.netError "unused")
    rfl (by decide) rfl (by decide) rfl (by decide) (by decide)).trans rfl

/-- C3 counterexample: the body `{}` is a present, parsed JSON body
missing all three required fields, yet — being falsy — it takes the
`No se envió JSON` branch: the 400 payload carries no `required` member
at all, against the claim that `required` lists the three field names. -/
theorem exchange_empty_body_no_required_list :
    (exchange_token ⟨some "d.auth0.com", some "cid", some "sec"⟩
        (.returned (some (.obj []))) (.netError "unused") (.netError "unused")).response
      = ⟨400, .obj [("error", .str "No se envió JSON")]⟩
    ∧ Json.field (exchange_token ⟨some "d.auth0.com", some "cid", some "sec"⟩
        (.returned (some (.obj []))) (.netError "unused") (.netError "unused")).response.body
        "required" = none :=
  ⟨rfl, rfl⟩

/-- C3 (amended): for a request whose parsed body is a non-empty JSON
object in which some required field is missing or the empty string, the
handler answers 400 and the payload's `required` member lists exactly
`code`, `code_verifier`, `redirect_uri` — all three, not only the missing
ones. -/
theorem exchange_missing_field_lists_required (cfg : Config)
    (fields : List (String × Json)) (post : PostOutcome) (ui : GetOutcome)
    (hne : fields ≠ [])
    (hmiss : (fields.lookup "code" = none ∨ fields.lookup "code" = some (.str ""))
        ∨ (fields.lookup "code_verifier" = none
            ∨ fields.lookup "code_verifier" = some (.str ""))
        ∨ (fields.lookup "redirect_uri" = none
            ∨ fields.lookup "redirect_uri" = some (.str ""))) :
    (exchange_token cfg (.returned (some (.obj fields))) post ui).response
      = ⟨400, .obj [("error", .str "Falta parámetro"),
                    ("required", .arr [.str "code", .str "code_verifier",
                                       .str "redirect_uri"])]⟩ := by
  have ht : (!fields.isEmpty) = true := by
    cases fields with
    | nil => exact absurd rfl hne
    | cons a as => rfl
  have ht' : truthy (Json.obj fields) = true := ht
  have hcond : (truthy (Json.get fields "code") && truthy (Json.get fields "code_verifier")
      && truthy (Json.get fields "redirect_uri")) = false := by
    rcases hmiss with (h | h) | (h | h) | (h | h) <;> simp [Json.get, h, truthy]
  simp only [exchange_token, Option.getD_some]
  rw [if_pos ht', if_neg (by simp [hcond])]
  rfl

/-- Closed instance of `exchange_missing_field_lists_required`: a body
carrying only `code`. -/
theorem exchange_missing_field_lists_required_witness :
    (exchange_token ⟨some "d.auth0.com", some "cid", some "sec"⟩
        (.returned (some (.obj [("code", .str "abc")])))
        (.netError "unused") (.netError "unused")).response
      = ⟨400, .obj [("error", .str "Falta parámetro"),
                    ("required", .arr [.str "code", .str "code_verifier",
                                       .str "redirect_uri"])]⟩ :=
  exchange_missing_field_lists_required ⟨some "d.auth0.com", some "cid", some "sec"⟩
    [("code", .str "abc")] (.netError "unused") (.netError "unused")
    (List.cons_ne_nil _ _) (Or.inr (Or.inl (Or.inl rfl)))

/-- C4 counterexample: a present but unparseable body makes the framework
JSON accessor raise; the exception is caught by the generic
`except Exception` clause, so the handler answers 500 — not the claimed
400 — for this request. -/
theorem exchange_unparseable_body_counterexample :
    (exchange_token ⟨some "d.auth0.com", some "cid", some "sec"⟩
        (.raised "400 Bad Request: Failed to decode JSON object")
        (.netError "unused") (.netError "unused")).response
      = internalError "400 Bad Request: Failed to decode JSON object"
    ∧ (exchange_token ⟨some "d.auth0.com", some "cid", some "sec"⟩
        (.raised "400 Bad Request: Failed to decode JSON object")
        (.netError "unused") (.netError "unused")).response.status ≠ 400 :=
  ⟨rfl, by decide⟩

/-- C4 (amended): when the JSON accessor delivers no body the handler
answers 400 with the `No se envió JSON` error; when the accessor raises
on an unparseable body, the generic handler answers 500 with the
exception text in `details`. -/
theorem exchange_absent_or_unparseable_body :
    (∀ (cfg : Config) (post : PostOutcome) (ui : GetOutcome),
        (exchange_token cfg (.returned none) post ui).response
          = ⟨400, .obj [("error", .str "No se envió JSON")]⟩)
    ∧ (∀ (cfg : Config) (msg : String) (post : PostOutcome) (ui : GetOutcome),
        (exchange_token cfg (.raised msg) post ui).response = internalError msg) :=
  ⟨fun _ _ _ => rfl, fun _ _ _ _ => rfl⟩

/-- C5: the configured client secret never reaches the caller — with the
inbound body and both provider outcomes held fixed, any two values of the
secret yield the identical response; the secret can only influence the
payload sent to the provider token endpoint. -/
theorem exchange_secret_noninterference (cfg : Config) (s₁ s₂ : Option String)
    (body : GetJson) (post : PostOutcome) (ui : GetOutcome) :
    (exchange_token { cfg with clientSecret := s₁ } body post ui).response
      = (exchange_token { cfg with clientSecret := s₂ } body post ui).response := by
  cases body with
  | raised msg => rfl
  | returned odata =>
    cases odata with
    | none => rfl
    | some data =>
      cases data with
      | null => rfl
      | bool b => cases b <;> rfl
      | num n =>
        simp only [exchange_token, Option.getD_some]
      | str s =>
        simp only [exchange_token, Option.getD_some]
      | arr es =>
        simp only [exchange_token, Option.getD_some]
      | obj fields =>
        simp only [exchange_token, Option.getD_some]
        by_cases hb : truthy (Json.obj fields) = true
        · simp only [if_pos hb]
          by_cases hf : (truthy (Json.get fields "code")
              && truthy (Json.get fields "code_verifier")
              && truthy (Json.get fields "redirect_uri")) = true
          · simp only [if_pos hf]
            cases post with
            | netError d => rfl
            | resp status pbody =>
              by_cases hst : 400 ≤ status ∧ status < 600
              · simp only [if_pos hst]
                rfl
              · simp only [if_neg hst]
                cases pbody with
                | malformed d => rfl
                | parsed td => cases td <;> rfl
          · simp only [if_neg hf]
        · simp only [if_neg hb]

/-- C6: the logout handler deterministically returns 200 with
`https://{domain}/v2/logout?client_id={client_id}` when `return_to` is
empty or the body is absent, and appends `&returnTo={return_to}` by plain
concatenation when `return_to` is a non-empty string. -/
theorem logout_url_construction (cfg : Config) (fields : List (String × Json)) (s : String)
    (h : Json.getOr fields "return_to" (.str "") = .str s) :
    logout cfg (.returned (some (.obj fields)))
      = ⟨200, .obj [("logout_url",
          .str (if s = "" then logoutBase cfg else logoutBase cfg ++ "&returnTo=" ++ s))]⟩
    ∧ logout cfg (.returned none)
      = ⟨200, .obj [("logout_url", .str (logoutBase cfg))]⟩ :=
  ⟨logout_obj_response cfg fields s h, rfl⟩

/-- Closed instance of `logout_url_construction`: a concrete non-empty
`return_to` is appended verbatim to the base URL. -/
theorem logout_url_construction_witness :
    logout ⟨some "d.auth0.com", some "cid", some "sec"⟩
        (.returned (some (.obj [("return_to", .str "https://app.example/home")])))
      = ⟨200, .obj [("logout_url",
          .str "https://d.auth0.com/v2/logout?client_id=cid&returnTo=https://app.example/home")]⟩ :=
  ((logout_url_construction ⟨some "d.auth0.com", some "cid", some "sec"⟩
    [("return_to", .str "https://app.example/home")] "https://app.example/home" rfl).1).trans rfl

/-- C7: behavior at the failing input — a present but unparseable logout
body makes the JSON accessor raise before the `or {}` default can apply;
the handler's `except Exception` clause answers 500 with the exception
text, not the lenient 200 the design calls for. -/
theorem logout_unparseable_body_returns_500 :
    logout ⟨some "d.auth0.com", some "cid", some "sec"⟩
        (.raised "400 Bad Request: Failed to decode JSON object")
      = ⟨500, .obj [("error", .str "400 Bad Request: Failed to decode JSON object")]⟩ := rfl

/-- C8: on the success path the `token_type` of the response is the
provider-supplied value when the provider token payload carries the field,
and the string `Bearer` when it omits it (`dict.get` with default). -/
theorem token_type_default_bearer (cfg : Config)
    (fields tokenFields : List (String × Json)) (c v r : String) (st : Nat) (ui : GetOutcome)
    (hcode : fields.lookup "code" = some (.str c)) (hc : c ≠ "")
    (hver : fields.lookup "code_verifier" = some (.str v)) (hv : v ≠ "")
    (hred : fields.lookup "redirect_uri" = some (.str r)) (hr : r ≠ "")
    (hst : st < 400) :
    Json.field (exchange_token cfg (.returned (some (.obj fields)))
        (.resp st (.parsed (.obj tokenFields))) ui).response.body "token_type"
      = some (Json.getOr tokenFields "token_type" (.str "Bearer")) := by
  rw [exchange_token_wellformed cfg fields c v r _ ui hcode hc hver hv hred hr]
  have hnot : ¬ (400 ≤ st ∧ st < 600) := by omega
  simp only [if_neg hnot]
  rfl

/-- Closed instance of `token_type_default_bearer`: the provider omits
`token_type`, so the response body carries `Bearer`. -/
theorem token_type_default_bearer_witness :
    Json.field (exchange_token ⟨some "d.auth0.com", some "cid", some "sec"⟩
        (.returned (some (.obj [("code", .str "abc"), ("code_verifier", .str "ver"),
                                ("redirect_uri", .str "http://localhost:8080/callback")])))
        (.resp 200 (.parsed (.obj [("access_token", .str "tok")])))
        (.netError "unused")).response.body "token_type"
      = some (.str "Bearer") :=
  (token_type_default_bearer ⟨some "d.auth0.com", some "cid", some "sec"⟩
    [("code", .str "abc"), ("code_verifier", .str "ver"),
     ("redirect_uri", .str "http://localhost:8080/callback")]
    [("access_token", .str "tok")]
    "abc" "ver" "http://localhost:8080/callback" 200 (.netError "unused")
    rfl (by decide) rfl (by decide) rfl (by decide) (by decide)).trans rfl

/-- C10 counterexample: even with the whole configuration unset, a logout
request with an unparseable body is answered 500 by the generic handler,
so not every logout request succeeds with 200. -/
theorem logout_unset_config_counterexample :
    (logout ⟨none, none, none⟩
        (.raised "400 Bad Request: Failed to decode JSON object")).status = 500
    ∧ (logout ⟨none, none, none⟩
        (.raised "400 Bad Request: Failed to decode JSON object")).status ≠ 200 :=
  ⟨rfl, by decide⟩

/-- C10 (amended): with the configuration never set, every logout request
whose body the JSON accessor delivers as an object — or delivers no body
at all — still succeeds: 200 with the unset values interpolated as the
string `None`, no outbound call and no upstream failure. -/
theorem logout_unset_config_succeeds :
    (∀ (fields : List (String × Json)) (s : String),
        Json.getOr fields "return_to" (.str "") = .str s →
        logout ⟨none, none, none⟩ (.returned (some (.obj fields)))
          = ⟨200, .obj [("logout_url",
              .str (if s = "" then "https://None/v2/logout?client_id=None"
                    else "https://None/v2/logout?client_id=None" ++ "&returnTo=" ++ s))]⟩)
    ∧ logout ⟨none, none, none⟩ (.returned none)
        = ⟨200, .obj [("logout_url", .str "https://None/v2/logout?client_id=None")]⟩ :=
  ⟨fun fields s h => logout_obj_response ⟨none, none, none⟩ fields s h, rfl⟩

/-- Closed instance of `logout_unset_config_succeeds`: unset configuration,
a concrete `return_to`. -/
theorem logout_unset_config_succeeds_witness :
    logout ⟨none, none, none⟩
        (.returned (some (.obj [("return_to", .str "https://app.example/home")])))
      = ⟨200, .obj [("logout_url",
          .str "https://None/v2/logout?client_id=None&returnTo=https://app.example/home")]⟩ :=
  (logout_unset_config_succeeds.1 [("return_to", .str "https://app.example/home")]
    "https://app.example/home" rfl).trans rfl

end AuthServer
